import Mathlib

/-!
Shallow embedding of the proofstore backend core (src/backend/core.py).

The SQLite state is modelled as explicit lists of rows in insertion (rowid)
order.  Every repository operation is a pure function threading the connection
state; a mutating operation returns `Except (Err × DB) (α × DB)` where the
error case carries the connection state after the statements that executed
before the exception was raised (Python raises propagate without rollback, so
statements already executed remain visible on the connection).  Timestamps
(now_utc_iso) and generated identifiers (secure_uuid4_str) are inputs of the
model.  Error constructors name the distinct raise sites of the source; the
unique-index violation on element_links(src_id, dst_id, rel) is the
`duplicateLink` constraint error of the spec's taxonomy.
-/

deriving instance DecidableEq for Except

/-- Python str.strip of the source (ASCII whitespace; all stored text in the
model is handled through it). -/
def pyStrip (s : String) : String :=
  String.mk (((s.toList.dropWhile Char.isWhitespace).reverse.dropWhile
    Char.isWhitespace).reverse)

/-- Lower-case folding of one ASCII letter (SQLite LIKE case folding). -/
def charLower (c : Char) : Char :=
  if 'A' ≤ c ∧ c ≤ 'Z' then Char.ofNat (c.toNat + 32) else c

/-- Upper-case folding of one ASCII letter (str.upper on order_dir). -/
def charUpper (c : Char) : Char :=
  if 'a' ≤ c ∧ c ≤ 'z' then Char.ofNat (c.toNat - 32) else c

/-- ASCII lower-casing of a string. -/
def sqlLower (s : String) : String := String.mk (s.toList.map charLower)

/-- ASCII upper-casing of a string. -/
def sqlUpper (s : String) : String := String.mk (s.toList.map charUpper)

/-- Lexicographic order on character lists: byte order of the stored UTF-8
text (SQLite BINARY collation; UTF-8 byte order equals code-point order). -/
def charListLe : List Char → List Char → Bool
  | [], _ => true
  | _ :: _, [] => false
  | a :: as, b :: bs => if a < b then true else if a = b then charListLe as bs else false

/-- BINARY-collation comparison of two strings. -/
def strLe (a b : String) : Bool := charListLe a.toList b.toList

/-- Row of the elements table (column order of the schema in init_db). -/
structure Element where
  id : String
  type : String
  format : String
  title : String
  body : String
  created_at : String
  updated_at : String
deriving DecidableEq, Repr

/-- Row of the element_tags table. -/
structure TagRow where
  element_id : String
  tag : String
  created_at : String
deriving DecidableEq, Repr

/-- Row of the element_links table. -/
structure LinkRow where
  id : String
  src_id : String
  dst_id : String
  rel : String
  note : String
  created_at : String
  updated_at : String
deriving DecidableEq, Repr

/-- The SQLite database state: the three tables, rows in rowid order. -/
structure DB where
  elements : List Element
  element_tags : List TagRow
  element_links : List LinkRow
deriving DecidableEq, Repr

/-- Distinct failure modes of the backend: each constructor corresponds to one
raise site of core.py (ValueError with a fixed message shape) or to an
IntegrityError from a schema constraint. -/
inductive Err where
  | invalidType (t : String)
  | invalidFormat (f : String)
  | invalidRel (r : String)
  | emptyTitle
  | emptyBody
  | emptyTag
  | tagTooLong
  | selfLink
  | srcNotFound (i : String)
  | dstNotFound (i : String)
  | badSrcType (rel ty : String)
  | badDstType (rel ty : String)
  | pkViolation
  | fkViolation
  | duplicateLink
  | invalidLimit
  | invalidOffset
  | invalidOrderBy
  | invalidOrderDir
deriving DecidableEq, Repr

/-- Result of a mutating repository call: on success the value and the new
connection state, on failure the error and the connection state after the
statements executed before the raise (no rollback happens in the source). -/
abbrev Res (α : Type) := Except (Err × DB) (α × DB)

/-- ELEMENT_TYPES of core.py. -/
def ELEMENT_TYPES : List String :=
  ["definition", "axiom", "postulate", "lemma", "proposition", "theorem",
   "corollary", "proof", "example", "counterexample", "remark"]

/-- FORMATS of core.py. -/
def FORMATS : List String := ["plain", "markdown", "html", "latex"]

/-- LINK_RELATIONS of core.py. -/
def LINK_RELATIONS : List String :=
  ["proves", "uses", "implies", "equivalent_to", "example_of",
   "counterexample_to", "related"]

/-- STATEMENTS subset of core.py. -/
def STATEMENTS : List String :=
  ["axiom", "postulate", "lemma", "proposition", "theorem", "corollary"]

/-- DERIVED_STATEMENTS subset of core.py. -/
def DERIVED_STATEMENTS : List String :=
  ["lemma", "proposition", "theorem", "corollary"]

/-- STATEMENT_OR_DEF subset of core.py (STATEMENTS plus definition). -/
def STATEMENT_OR_DEF : List String := STATEMENTS ++ ["definition"]

/-- STATEMENT_LIKE_FOR_EQ subset of core.py. -/
def STATEMENT_LIKE_FOR_EQ : List String :=
  ["definition", "lemma", "proposition", "theorem", "corollary"]

/-- REL_RULES of core.py: each relation maps to its allowed source types and
allowed destination types; a relation outside the table has no entry. -/
def REL_RULES (rel : String) : Option (List String × List String) :=
  if rel = "proves" then some (["proof"], DERIVED_STATEMENTS)
  else if rel = "uses" then some (STATEMENTS ++ ["proof"], STATEMENT_OR_DEF)
  else if rel = "example_of" then some (["example"], STATEMENT_LIKE_FOR_EQ)
  else if rel = "counterexample_to" then some (["counterexample"], STATEMENT_LIKE_FOR_EQ)
  else if rel = "equivalent_to" then some (STATEMENT_LIKE_FOR_EQ, STATEMENT_LIKE_FOR_EQ)
  else if rel = "implies" then some (STATEMENTS, STATEMENTS)
  else if rel = "related" then some (ELEMENT_TYPES, ELEMENT_TYPES)
  else none

/-- Python's `x or default` for an optional string: an absent or empty string
falls back to the default (used for `id or secure_uuid4_str()`). -/
def pyOr (o : Option String) (d : String) : String :=
  match o with
  | some s => if s = "" then d else s
  | none => d

/-- validate_type of core.py. -/
def validate_type (t : String) : Except Err String :=
  if t ∈ ELEMENT_TYPES then .ok t else .error (.invalidType t)

/-- validate_format of core.py. -/
def validate_format (fmt : String) : Except Err String :=
  if fmt ∈ FORMATS then .ok fmt else .error (.invalidFormat fmt)

/-- validate_rel of core.py. -/
def validate_rel (rel : String) : Except Err String :=
  if rel ∈ LINK_RELATIONS then .ok rel else .error (.invalidRel rel)

/-- _fetch_type of core.py: the type of the element with the given id. -/
def fetch_type (db : DB) (element_id : String) : Option String :=
  (db.elements.find? (fun e => e.id == element_id)).map (fun e => e.type)

/-- validate_link_semantics of core.py: relation validity, distinctness,
endpoint existence, then the REL_RULES compatibility checks, in source order. -/
def validate_link_semantics (db : DB) (src_id dst_id rel : String) : Except Err Unit :=
  match validate_rel rel with
  | .error e => .error e
  | .ok _ =>
    if src_id = dst_id then .error .selfLink
    else
      match fetch_type db src_id with
      | none => .error (.srcNotFound src_id)
      | some src_type =>
        match fetch_type db dst_id with
        | none => .error (.dstNotFound dst_id)
        | some dst_type =>
          match REL_RULES rel with
          | none => .error (.invalidRel rel)
          | some (allowed_src, allowed_dst) =>
            if src_type ∈ allowed_src then
              if dst_type ∈ allowed_dst then .ok ()
              else .error (.badDstType rel dst_type)
            else .error (.badSrcType rel src_type)

/-- _normalize_tag of core.py: trim, reject empty and over-long tags. -/
def normalize_tag (tag : String) : Except Err String :=
  let t := pyStrip tag
  if t = "" then .error .emptyTag
  else if t.length > 128 then .error .tagTooLong
  else .ok t

/-- Normalization of every tag in order, first failure wins (the list
comprehension inside _normalize_tags). -/
def mapNormalizeTag : List String → Except Err (List String)
  | [] => .ok []
  | t :: rest =>
    match normalize_tag t with
    | .error e => .error e
    | .ok t1 =>
      match mapNormalizeTag rest with
      | .error e => .error e
      | .ok rest1 => .ok (t1 :: rest1)

/-- Deduplication keeping the first occurrence (the seen-set loop of
_normalize_tags). -/
def dedupFirstSeen (seen : List String) : List String → List String
  | [] => []
  | t :: rest =>
    if t ∈ seen then dedupFirstSeen seen rest
    else t :: dedupFirstSeen (t :: seen) rest

/-- _normalize_tags of core.py: normalize each tag then deduplicate. -/
def normalize_tags (tags : List String) : Except Err (List String) :=
  match mapNormalizeTag tags with
  | .error e => .error e
  | .ok norm => .ok (dedupFirstSeen [] norm)

/-- Insertion into a sorted list with respect to a boolean order. -/
def insertByLe {α : Type} (le : α → α → Bool) (x : α) : List α → List α
  | [] => [x]
  | y :: ys => if le x y then x :: y :: ys else y :: insertByLe le x ys

/-- Insertion sort with respect to a boolean order, modelling ORDER BY. -/
def sortByLe {α : Type} (le : α → α → Bool) : List α → List α
  | [] => []
  | x :: xs => insertByLe le x (sortByLe le xs)

/-- Ascending lexical order on stored text (SQLite BINARY collation: UTF-8
byte order, which coincides with code-point order). -/
def sortTags : List String → List String :=
  sortByLe strLe

/-- list_tags of core.py: SELECT tag ... ORDER BY tag ASC. -/
def list_tags (db : DB) (element_id : String) : List String :=
  sortTags ((db.element_tags.filter (fun r => r.element_id == element_id)).map
    (fun r => r.tag))

/-- EXISTS check used by the element_tags foreign key on element_id. -/
def elementExists (db : DB) (element_id : String) : Bool :=
  db.elements.any (fun e => e.id == element_id)

/-- One INSERT INTO element_tags per tag, in order: each insert first checks
the foreign key to elements and the (element_id, tag) primary key, and a
failure raises with the rows inserted so far still on the connection. -/
def insertTagRows (element_id ts : String) : DB → List String → Res Unit
  | db, [] => .ok ((), db)
  | db, t :: rest =>
    if elementExists db element_id then
      if db.element_tags.any (fun r => r.element_id == element_id && r.tag == t) then
        .error (.pkViolation, db)
      else
        insertTagRows element_id ts
          (DB.mk db.elements (db.element_tags ++ [TagRow.mk element_id t ts])
            db.element_links) rest
    else .error (.fkViolation, db)

/-- set_tags of core.py: normalize first, then DELETE all rows of the element,
then INSERT the normalized tags one by one. -/
def set_tags (db : DB) (element_id : String) (tags : List String) (ts : String) : Res Unit :=
  match normalize_tags tags with
  | .error e => .error (e, db)
  | .ok norm =>
    insertTagRows element_id ts
      (DB.mk db.elements (db.element_tags.filter (fun r => r.element_id != element_id))
        db.element_links) norm

/-- create_element of core.py: validate type, format, title, body, then INSERT
the element row, then set_tags when a tag list is supplied.  The generated id
and the timestamp are inputs of the model. -/
def create_element (db : DB) (type title body format : String)
    (tags : Option (List String)) (id : Option String) (gen_id ts : String) : Res String :=
  match validate_type type with
  | .error e => .error (e, db)
  | .ok _ =>
    match validate_format format with
    | .error e => .error (e, db)
    | .ok _ =>
      if pyStrip title = "" then .error (.emptyTitle, db)
      else if pyStrip body = "" then .error (.emptyBody, db)
      else
        let element_id := pyOr id gen_id
        if db.elements.any (fun e => e.id == element_id) then .error (.pkViolation, db)
        else
          let db1 := DB.mk
            (db.elements ++ [Element.mk element_id type format title body ts ts])
            db.element_tags db.element_links
          match tags with
          | none => .ok (element_id, db1)
          | some tl =>
            match set_tags db1 element_id tl ts with
            | .error (e, db2) => .error (e, db2)
            | .ok (_, db2) => .ok (element_id, db2)

/-- get_element of core.py (row part): SELECT * FROM elements WHERE id. -/
def get_element (db : DB) (element_id : String) : Option Element :=
  db.elements.find? (fun e => e.id == element_id)

/-- get_element with include_tags: the returned record embeds the tag list. -/
def get_element_with_tags (db : DB) (element_id : String) : Option (Element × List String) :=
  (get_element db element_id).map (fun e => (e, list_tags db element_id))

/-- The merged type of a partial update: validate the supplied value, else
keep the existing one (the conditional expression of update_element). -/
def resolveOptType (o : Option String) (d : String) : Except Err String :=
  match o with
  | some t => validate_type t
  | none => .ok d

/-- The merged format of a partial update: validate the supplied value, else
keep the existing one. -/
def resolveOptFormat (o : Option String) (d : String) : Except Err String :=
  match o with
  | some f => validate_format f
  | none => .ok d

/-- update_element of core.py: fetch the row first (returning false when
absent), validate only the supplied fields, check merged title and body, then
UPDATE the row and replace tags when a tag list is supplied. -/
def update_element (db : DB) (element_id : String)
    (type title body format : Option String) (tags : Option (List String))
    (ts : String) : Res Bool :=
  match db.elements.find? (fun e => e.id == element_id) with
  | none => .ok (false, db)
  | some existing =>
    match resolveOptType type existing.type with
    | .error e => .error (e, db)
    | .ok new_type =>
      let new_title := title.getD existing.title
      let new_body := body.getD existing.body
      match resolveOptFormat format existing.format with
      | .error e => .error (e, db)
      | .ok new_format =>
        if pyStrip new_title = "" then .error (.emptyTitle, db)
        else if pyStrip new_body = "" then .error (.emptyBody, db)
        else
          let db1 := DB.mk
            (db.elements.map (fun e =>
              if e.id == element_id then
                Element.mk e.id new_type new_format new_title new_body e.created_at ts
              else e))
            db.element_tags db.element_links
          match tags with
          | none => .ok (true, db1)
          | some tl =>
            match set_tags db1 element_id tl ts with
            | .error (e, db2) => .error (e, db2)
            | .ok (_, db2) => .ok (true, db2)

/-- create_link of core.py: validate the relation, run the semantic check,
then INSERT, which enforces the link id primary key and the unique index on
(src_id, dst_id, rel). -/
def create_link (db : DB) (src_id dst_id rel note : String)
    (id : Option String) (gen_id ts : String) : Res String :=
  match validate_rel rel with
  | .error e => .error (e, db)
  | .ok _ =>
    match validate_link_semantics db src_id dst_id rel with
    | .error e => .error (e, db)
    | .ok _ =>
      let link_id := pyOr id gen_id
      if db.element_links.any (fun l => l.id == link_id) then .error (.pkViolation, db)
      else if db.element_links.any (fun l =>
          l.src_id == src_id && l.dst_id == dst_id && l.rel == rel) then
        .error (.duplicateLink, db)
      else
        .ok (link_id, DB.mk db.elements db.element_tags
          (db.element_links ++ [LinkRow.mk link_id src_id dst_id rel note ts ts]))

/-- get_link of core.py. -/
def get_link (db : DB) (link_id : String) : Option LinkRow :=
  db.element_links.find? (fun l => l.id == link_id)

/-- update_link of core.py: fetch the row first (returning false when absent),
validate a supplied rel, re-run the semantic check against the existing
endpoints exactly when rel is supplied, then UPDATE the row. -/
def update_link (db : DB) (link_id : String) (rel note : Option String)
    (ts : String) : Res Bool :=
  match db.element_links.find? (fun l => l.id == link_id) with
  | none => .ok (false, db)
  | some existing =>
    match (match rel with
           | some r => validate_rel r
           | none => .ok existing.rel) with
    | .error e => .error (e, db)
    | .ok new_rel =>
      let new_note := note.getD existing.note
      match (match rel with
             | some _ => validate_link_semantics db existing.src_id existing.dst_id new_rel
             | none => .ok ()) with
      | .error e => .error (e, db)
      | .ok _ =>
        .ok (true, DB.mk db.elements db.element_tags
          (db.element_links.map (fun l =>
            if l.id == link_id then
              LinkRow.mk l.id l.src_id l.dst_id new_rel new_note l.created_at ts
            else l)))

/-- Infix test on character lists, for the LIKE pattern. -/
def charsInfix (needle : List Char) : List Char → Bool
  | [] => needle.isEmpty
  | c :: rest => needle.isPrefixOf (c :: rest) || charsInfix needle rest

/-- SQLite LIKE with a pattern of the shape percent-text-percent: substring
match, case-insensitive (SQLite folds ASCII case by default; inner wildcard
characters of the query string are not modelled). -/
def likeSub (hay pat : String) : Bool :=
  charsInfix (sqlLower pat).toList (sqlLower hay).toList

/-- Sort key for ORDER BY e.order_by in list_elements; the fallthrough is
updated_at, the default (order_by is already checked against the allowed set). -/
def elemKey (order_by : String) (e : Element) : String :=
  if order_by = "created_at" then e.created_at
  else if order_by = "title" then e.title
  else if order_by = "type" then e.type
  else if order_by = "format" then e.format
  else e.updated_at

/-- Sort key for ORDER BY in list_links. -/
def linkKey (order_by : String) (l : LinkRow) : String :=
  if order_by = "created_at" then l.created_at
  else if order_by = "rel" then l.rel
  else l.updated_at

/-- Comparison for ORDER BY with a direction. -/
def dirLe (asc : Bool) (ka kb : String) : Bool :=
  if asc then strLe ka kb else strLe kb ka

/-- LIMIT lim OFFSET off as SQLite executes it: a negative LIMIT means
unlimited (the source inserts LIMIT -1 when only an offset is supplied), a
negative OFFSET counts as zero. -/
def sqliteLimitOffset {α : Type} (rows : List α) (lim off : Int) : List α :=
  let dropped := rows.drop off.toNat
  if lim < 0 then dropped else dropped.take lim.toNat

/-- The LIMIT/OFFSET clause assembly shared by list_elements and list_links:
limit is validated first, then offset; when only an offset is supplied the
source adds LIMIT -1 so that the OFFSET clause applies. -/
def applyPagination {α : Type} (rows : List α) (limit offset : Option Int) :
    Except Err (List α) :=
  match limit with
  | some m =>
    if m < 1 then .error .invalidLimit
    else
      match offset with
      | some k =>
        if k < 0 then .error .invalidOffset
        else .ok (sqliteLimitOffset rows m k)
      | none => .ok (sqliteLimitOffset rows m 0)
  | none =>
    match offset with
    | some k =>
      if k < 0 then .error .invalidOffset
      else .ok (sqliteLimitOffset rows (-1) k)
    | none => .ok rows

/-- The query part of list_elements: argument validation in source order
(type, format, order_by, order_dir, then tag normalization while the WHERE
clause is built), then the filtered rows in ORDER BY order.  A supplied empty
string skips a truthiness-guarded filter exactly as in the source. -/
def elementsQuery (db : DB) (type q tag format : Option String)
    (order_by order_dir : String) : Except Err (List Element) :=
  match ((match type with | some t => validate_type t | none => .ok "") : Except Err String) with
  | .error e => .error e
  | .ok _ =>
    match ((match format with | some f => validate_format f | none => .ok "") : Except Err String) with
    | .error e => .error e
    | .ok _ =>
      if order_by ∈ (["updated_at", "created_at", "title", "type", "format"] : List String) then
        let dirU := sqlUpper order_dir
        if dirU = "ASC" ∨ dirU = "DESC" then
          match ((match tag with
                  | some tg =>
                    match normalize_tag tg with
                    | .error e => .error e
                    | .ok tn => .ok (some tn)
                  | none => .ok none) : Except Err (Option String)) with
          | .error e => .error e
          | .ok tagN =>
            let rows := db.elements.filter (fun e =>
              (match tagN with
               | some tn => db.element_tags.any (fun r => r.element_id == e.id && r.tag == tn)
               | none => true) &&
              (match type with | some t => t == "" || e.type == t | none => true) &&
              (match format with | some f => f == "" || e.format == f | none => true) &&
              (match q with
               | some s => s == "" || (likeSub e.title s || likeSub e.body s)
               | none => true))
            .ok (sortByLe (fun a b => dirLe (dirU == "ASC") (elemKey order_by a) (elemKey order_by b)) rows)
        else .error .invalidOrderDir
      else .error .invalidOrderBy

/-- list_elements of core.py: the query, then pagination, then optional tag
embedding on the returned rows (an empty list stands for the absent tags key
when include_tags is false). -/
def list_elements (db : DB) (type q tag format : Option String)
    (limit offset : Option Int) (order_by order_dir : String)
    (include_tags : Bool) : Except Err (List (Element × List String)) :=
  match elementsQuery db type q tag format order_by order_dir with
  | .error e => .error e
  | .ok rows =>
    match applyPagination rows limit offset with
    | .error e => .error e
    | .ok page =>
      .ok (page.map (fun e => (e, if include_tags then list_tags db e.id else [])))

/-- The query part of list_links: order_by and order_dir validation, then the
WHERE clause with truthiness-guarded filters (a supplied empty string skips
the filter and, for rel, skips validation), then ORDER BY order. -/
def linksQuery (db : DB) (src_id dst_id rel : Option String)
    (order_by order_dir : String) : Except Err (List LinkRow) :=
  if order_by ∈ (["updated_at", "created_at", "rel"] : List String) then
    let dirU := sqlUpper order_dir
    if dirU = "ASC" ∨ dirU = "DESC" then
      match ((match rel with
              | some r => if r = "" then .ok "" else validate_rel r
              | none => .ok "") : Except Err String) with
      | .error e => .error e
      | .ok _ =>
        let rows := db.element_links.filter (fun l =>
          (match src_id with | some s => s == "" || l.src_id == s | none => true) &&
          (match dst_id with | some d => d == "" || l.dst_id == d | none => true) &&
          (match rel with | some r => r == "" || l.rel == r | none => true))
        .ok (sortByLe (fun a b => dirLe (dirU == "ASC") (linkKey order_by a) (linkKey order_by b)) rows)
    else .error .invalidOrderDir
  else .error .invalidOrderBy

/-- list_links of core.py: the query then pagination. -/
def list_links (db : DB) (src_id dst_id rel : Option String)
    (limit offset : Option Int) (order_by order_dir : String) :
    Except Err (List LinkRow) :=
  match linksQuery db src_id dst_id rel order_by order_dir with
  | .error e => .error e
  | .ok rows => applyPagination rows limit offset

/-- The error component of a repository result. -/
def errOf {α : Type} (r : Res α) : Option Err :=
  match r with
  | .error (e, _) => some e
  | .ok _ => none

/-- The empty store. -/
def db0 : DB := DB.mk [] [] []

/-- A store holding one remark element with id e1 and no tags or links. -/
def dbE1 : DB :=
  DB.mk [Element.mk "e1" "remark" "plain" "x" "y" "t0" "t0"] [] []

/-- A proof element with id p. -/
def elemP : Element := Element.mk "p" "proof" "plain" "P" "pb" "t0" "t0"

/-- A theorem element with id t. -/
def elemT : Element := Element.mk "t" "theorem" "plain" "T" "tb" "t0" "t0"

/-- A store holding the proof element p and the theorem element t. -/
def dbPT : DB := DB.mk [elemP, elemT] [] []

/-- A proves link with id L from p to t. -/
def linkPT : LinkRow := LinkRow.mk "L" "p" "t" "proves" "" "t0" "t0"

/-- The store dbPT together with the proves link L. -/
def dbPTL : DB := DB.mk [elemP, elemT] [] [linkPT]

/-- The store dbPTL after update_element changed the type of p to remark at
time t2: the proves link L is now semantically stale. -/
def dbC8 : DB :=
  DB.mk [Element.mk "p" "remark" "plain" "P" "pb" "t0" "t2", elemT] [] [linkPT]

/-- The connection state left behind by the failing create_element of the C1
scenario: the element row was inserted before tag validation raised. -/
def dbC1 : DB :=
  DB.mk [Element.mk "e1" "theorem" "plain" "t" "b" "t0" "t0"] [] []

/-- The store dbE1 after update_element with no fields supplied at time t2:
only updated_at changed. -/
def dbE1upd : DB :=
  DB.mk [Element.mk "e1" "remark" "plain" "x" "y" "t0" "t2"] [] []

/-- find? over a map by a function that preserves the tested predicate. -/
theorem find?_map_of_pred {α β : Type} (g : α → β) (p : α → Bool) (q : β → Bool)
    (h : ∀ a, q (g a) = p a) :
    ∀ l : List α, (l.map g).find? q = (l.find? p).map g := by
  intro l
  induction l with
  | nil => rfl
  | cons a as ih =>
    rw [List.map_cons, List.find?, List.find?, h a]
    cases hp : p a with
    | true => rfl
    | false => simpa using ih

/-- create_link on a valid relation with equal endpoints raises the self-link
error before any endpoint lookup, leaving the state untouched. -/
theorem create_link_self_of_valid (db : DB) (a r note : String) (idOpt : Option String)
    (gid ts : String) (hv : validate_rel r = .ok r) :
    create_link db a a r note idOpt gid ts = .error (.selfLink, db) := by
  unfold create_link validate_link_semantics
  rw [hv]
  simp

/-- C1: the spec demands that every validation failure is raised before any
mutating statement executes, so that a failing call leaves the store
unchanged; evaluating the code at the failing input shows create_element with
a valid element and one invalid tag executes the element INSERT first and
raises the empty-tag error with the new element row already on the
connection (dbC1), so the store is not left unchanged. -/
theorem proofstore_C1_partial_write :
    create_element db0 "theorem" "t" "b" "plain" (some [" "]) none "e1" "t0" =
      .error (.emptyTag, dbC1) ∧ dbC1.elements ≠ [] := by
  constructor
  · decide
  · decide

/-- C3 counterexample: the claim quantifies over relations valid or not, but
for a relation outside the seven kinds the call fails with the invalid-rel
error of validate_rel, which runs before the self-link check, not with
SelfLink. -/
theorem proofstore_C3_counterexample :
    errOf (create_link db0 "a" "a" "bogus" "" none "g" "t0") =
      some (Err.invalidRel "bogus") ∧
    errOf (create_link db0 "a" "a" "bogus" "" none "g" "t0") ≠ some Err.selfLink := by
  constructor
  · decide
  · decide

/-- C3 (amended): for every element id a and every relation r among the seven
kinds, create_link with src and dst both a fails with SelfLink; the check runs
after relation validation and before endpoint lookup, so it fires for every
store, in particular when the id does not exist; the state is unchanged. -/
theorem proofstore_C3_amended (db : DB) (a r note : String) (idOpt : Option String)
    (gid ts : String) (hr : r ∈ LINK_RELATIONS) :
    create_link db a a r note idOpt gid ts = .error (.selfLink, db) := by
  have hv : validate_rel r = .ok r := by
    unfold validate_rel
    rw [if_pos hr]
  exact create_link_self_of_valid db a r note idOpt gid ts hv

/-- C3 amended witness: a self link on the empty store (the id x does not
exist) with the relation related fails with SelfLink. -/
theorem proofstore_C3_amended_witness :
    ("related" ∈ LINK_RELATIONS) ∧
    create_link db0 "x" "x" "related" "" none "g" "t0" = .error (.selfLink, db0) :=
  ⟨by decide, proofstore_C3_amended db0 "x" "related" "" none "g" "t0" (by decide)⟩

/-- C9: update_element and update_link fetch the target row before validating
any supplied field, so on an absent id they return false with the store
unchanged, whatever (possibly invalid) values were supplied. -/
theorem proofstore_C9 :
    (∀ (db : DB) (eid : String) (tyo tio bo fo : Option String)
       (tgo : Option (List String)) (ts : String),
       (∀ e ∈ db.elements, e.id ≠ eid) →
       update_element db eid tyo tio bo fo tgo ts = .ok (false, db)) ∧
    (∀ (db : DB) (lid : String) (ro no : Option String) (ts : String),
       (∀ l ∈ db.element_links, l.id ≠ lid) →
       update_link db lid ro no ts = .ok (false, db)) := by
  constructor
  · intro db eid tyo tio bo fo tgo ts h
    unfold update_element
    have hf : db.elements.find? (fun e => e.id == eid) = none := by
      rw [List.find?_eq_none]
      intro e he
      simpa using h e he
    rw [hf]
  · intro db lid ro no ts h
    unfold update_link
    have hf : db.element_links.find? (fun l => l.id == lid) = none := by
      rw [List.find?_eq_none]
      intro l hl
      simpa using h l hl
    rw [hf]

/-- Semantic validation on existing, distinct endpoints succeeds exactly when
both endpoint types lie in the allowed sets of the relation's REL_RULES entry. -/
theorem vls_iff (db : DB) (src dst rel st dt : String) (A D : List String)
    (hv : validate_rel rel = .ok rel) (hR : REL_RULES rel = some (A, D))
    (hs : fetch_type db src = some st) (hd : fetch_type db dst = some dt)
    (hne : src ≠ dst) :
    (validate_link_semantics db src dst rel = .ok () ↔ st ∈ A ∧ dt ∈ D) := by
  unfold validate_link_semantics
  simp only [hv, hs, hd, hR, if_neg hne]
  split_ifs with h1 h2
  · simp [h1, h2]
  · simp [h1, h2]
  · simp [h1]

/-- The existential form of a REL_RULES lookup collapses to the memberships in
the entry of the relation. -/
theorem rules_exists_iff (A D : List String) (st dt rel : String)
    (hR : REL_RULES rel = some (A, D)) :
    ((∃ A2 D2, REL_RULES rel = some (A2, D2) ∧ st ∈ A2 ∧ dt ∈ D2) ↔
      st ∈ A ∧ dt ∈ D) := by
  rw [hR]
  constructor
  · rintro ⟨A2, D2, hsome, h1, h2⟩
    obtain ⟨rfl, rfl⟩ : A = A2 ∧ D = D2 := by
      have := Option.some.inj hsome
      exact ⟨congrArg Prod.fst this, congrArg Prod.snd this⟩
    exact ⟨h1, h2⟩
  · rintro ⟨h1, h2⟩
    exact ⟨A, D, rfl, h1, h2⟩

/-- C2: for existing, distinct endpoints and a relation among the seven kinds,
validate_link_semantics accepts exactly when the source type and destination
type lie in the REL_RULES allowed sets; in particular a proves link from a
proof to a theorem is created successfully, while the reversed direction fails
with the incompatible-source error naming the relation and the offending type. -/
theorem proofstore_C2 :
    (∀ (db : DB) (src dst rel st dt : String),
       fetch_type db src = some st → fetch_type db dst = some dt → src ≠ dst →
       rel ∈ LINK_RELATIONS →
       (validate_link_semantics db src dst rel = .ok () ↔
         ∃ A D, REL_RULES rel = some (A, D) ∧ st ∈ A ∧ dt ∈ D)) ∧
    (∀ (db : DB) (p t gid ts : String),
       fetch_type db p = some "proof" → fetch_type db t = some "theorem" → p ≠ t →
       (∀ l ∈ db.element_links, l.id ≠ gid) →
       (∀ l ∈ db.element_links, ¬(l.src_id = p ∧ l.dst_id = t ∧ l.rel = "proves")) →
       ∃ db2, create_link db p t "proves" "" none gid ts = .ok (gid, db2)) ∧
    (∀ (db : DB) (p t gid ts : String),
       fetch_type db p = some "proof" → fetch_type db t = some "theorem" → t ≠ p →
       create_link db t p "proves" "" none gid ts =
         .error (.badSrcType "proves" "theorem", db)) := by
  refine ⟨?_, ?_, ?_⟩
  · intro db src dst rel st dt hs hd hne hrel
    have hv : validate_rel rel = .ok rel := by
      unfold validate_rel
      rw [if_pos hrel]
    simp only [LINK_RELATIONS, List.mem_cons, List.not_mem_nil, or_false] at hrel
    rcases hrel with rfl | rfl | rfl | rfl | rfl | rfl | rfl
    · exact (vls_iff db src dst "proves" st dt ["proof"] DERIVED_STATEMENTS hv
        (by decide) hs hd hne).trans
        (rules_exists_iff ["proof"] DERIVED_STATEMENTS st dt "proves" (by decide)).symm
    · exact (vls_iff db src dst "uses" st dt (STATEMENTS ++ ["proof"]) STATEMENT_OR_DEF hv
        (by decide) hs hd hne).trans
        (rules_exists_iff (STATEMENTS ++ ["proof"]) STATEMENT_OR_DEF st dt "uses" (by decide)).symm
    · exact (vls_iff db src dst "implies" st dt STATEMENTS STATEMENTS hv
        (by decide) hs hd hne).trans
        (rules_exists_iff STATEMENTS STATEMENTS st dt "implies" (by decide)).symm
    · exact (vls_iff db src dst "equivalent_to" st dt STATEMENT_LIKE_FOR_EQ STATEMENT_LIKE_FOR_EQ hv
        (by decide) hs hd hne).trans
        (rules_exists_iff STATEMENT_LIKE_FOR_EQ STATEMENT_LIKE_FOR_EQ st dt "equivalent_to" (by decide)).symm
    · exact (vls_iff db src dst "example_of" st dt ["example"] STATEMENT_LIKE_FOR_EQ hv
        (by decide) hs hd hne).trans
        (rules_exists_iff ["example"] STATEMENT_LIKE_FOR_EQ st dt "example_of" (by decide)).symm
    · exact (vls_iff db src dst "counterexample_to" st dt ["counterexample"] STATEMENT_LIKE_FOR_EQ hv
        (by decide) hs hd hne).trans
        (rules_exists_iff ["counterexample"] STATEMENT_LIKE_FOR_EQ st dt "counterexample_to" (by decide)).symm
    · exact (vls_iff db src dst "related" st dt ELEMENT_TYPES ELEMENT_TYPES hv
        (by decide) hs hd hne).trans
        (rules_exists_iff ELEMENT_TYPES ELEMENT_TYPES st dt "related" (by decide)).symm
  · intro db p t gid ts hp ht hne hid hdup
    have hsem : validate_link_semantics db p t "proves" = .ok () :=
      (vls_iff db p t "proves" "proof" "theorem" ["proof"] DERIVED_STATEMENTS
        (by decide) (by decide) hp ht hne).mpr ⟨by decide, by decide⟩
    have h1 : db.element_links.any (fun l => l.id == pyOr none gid) = false := by
      rw [List.any_eq_false]
      intro l hl
      simpa [pyOr] using hid l hl
    have h2 : db.element_links.any
        (fun l => l.src_id == p && l.dst_id == t && l.rel == "proves") = false := by
      rw [List.any_eq_false]
      intro l hl
      simpa [and_assoc] using hdup l hl
    unfold create_link
    rw [show validate_rel "proves" = Except.ok "proves" from by decide, hsem]
    simp only [h1, h2, Bool.false_eq_true, if_false]
    exact ⟨_, rfl⟩
  · intro db p t gid ts hp ht hne
    have hsem : validate_link_semantics db t p "proves" =
        .error (.badSrcType "proves" "theorem") := by
      unfold validate_link_semantics
      simp only [show validate_rel "proves" = Except.ok "proves" from by decide,
        ht, hp, if_neg hne,
        show REL_RULES "proves" = some (["proof"], DERIVED_STATEMENTS) from by decide]
      simp
    unfold create_link
    rw [show validate_rel "proves" = Except.ok "proves" from by decide, hsem]

/-- C2 witness: on the store with the proof p and the theorem t, the iff holds
at the proves relation, the forward proves link is created, and the reversed
one fails with the incompatible-source error. -/
theorem proofstore_C2_witness :
    (validate_link_semantics dbPT "p" "t" "proves" = .ok () ↔
      ∃ A D, REL_RULES "proves" = some (A, D) ∧ "proof" ∈ A ∧ "theorem" ∈ D) ∧
    (∃ db2, create_link dbPT "p" "t" "proves" "" none "g" "t1" = .ok ("g", db2)) ∧
    create_link dbPT "t" "p" "proves" "" none "g" "t1" =
      .error (.badSrcType "proves" "theorem", dbPT) :=
  ⟨proofstore_C2.1 dbPT "p" "t" "proves" "proof" "theorem" (by decide) (by decide)
     (by decide) (by decide),
   proofstore_C2.2.1 dbPT "p" "t" "g" "t1" (by decide) (by decide) (by decide)
     (by decide) (by decide),
   proofstore_C2.2.2 dbPT "p" "t" "g" "t1" (by decide) (by decide) (by decide)⟩

/-- validate_rel either returns its argument or the invalid-rel error. -/
theorem validate_rel_cases (r : String) :
    validate_rel r = .ok r ∨ validate_rel r = .error (.invalidRel r) := by
  unfold validate_rel
  split_ifs <;> simp

/-- C6: when a link with the same source, destination and relation already
exists (and the link is still semantically valid, as a link created through
the API is), a second create_link with a fresh id fails with the
duplicate-link constraint error of the unique index, and the store, in
particular the original link row, is unchanged. -/
theorem proofstore_C6 (db : DB) (l : LinkRow) (note : String) (idOpt : Option String)
    (gid ts : String)
    (hl : l ∈ db.element_links)
    (hsem : validate_link_semantics db l.src_id l.dst_id l.rel = .ok ())
    (hid : ∀ l2 ∈ db.element_links, l2.id ≠ pyOr idOpt gid) :
    create_link db l.src_id l.dst_id l.rel note idOpt gid ts =
      .error (.duplicateLink, db) ∧ l ∈ db.element_links := by
  refine ⟨?_, hl⟩
  have hv : validate_rel l.rel = .ok l.rel := by
    rcases validate_rel_cases l.rel with h | h
    · exact h
    · unfold validate_link_semantics at hsem
      rw [h] at hsem
      exact absurd hsem (by simp)
  have h1 : db.element_links.any (fun l2 => l2.id == pyOr idOpt gid) = false := by
    rw [List.any_eq_false]
    intro l2 hl2
    simpa using hid l2 hl2
  have h2 : db.element_links.any
      (fun l2 => l2.src_id == l.src_id && l2.dst_id == l.dst_id && l2.rel == l.rel) = true :=
    List.any_eq_true.mpr ⟨l, hl, by simp⟩
  unfold create_link
  rw [hv, hsem]
  simp only [h1, h2, Bool.false_eq_true, if_false, if_true]

/-- C6 witness: re-creating the proves link from p to t on the store that
already holds it fails with the duplicate-link error and leaves the store
unchanged. -/
theorem proofstore_C6_witness :
    create_link dbPTL linkPT.src_id linkPT.dst_id linkPT.rel "" none "g2" "t2" =
      .error (.duplicateLink, dbPTL) ∧ linkPT ∈ dbPTL.element_links :=
  proofstore_C6 dbPTL linkPT "" none "g2" "t2" (by decide) (by decide) (by decide)

/-- C5: for every valid type, non-blank title and body and valid format, with
a fresh generated id, create_element succeeds and get_element on the returned
id yields a record with exactly the supplied type, title, body and format,
whose created_at equals its updated_at. -/
theorem proofstore_C5 (db : DB) (ty title body fmt gid ts : String)
    (hty : ty ∈ ELEMENT_TYPES) (hfmt : fmt ∈ FORMATS)
    (hti : pyStrip title ≠ "") (hbo : pyStrip body ≠ "")
    (hfresh : ∀ e ∈ db.elements, e.id ≠ gid) :
    ∃ db2 e, create_element db ty title body fmt none none gid ts = .ok (gid, db2) ∧
      get_element db2 gid = some e ∧
      e.type = ty ∧ e.title = title ∧ e.body = body ∧ e.format = fmt ∧
      e.created_at = e.updated_at := by
  have hvt : validate_type ty = .ok ty := by
    unfold validate_type
    rw [if_pos hty]
  have hvf : validate_format fmt = .ok fmt := by
    unfold validate_format
    rw [if_pos hfmt]
  have hany : db.elements.any (fun e => e.id == pyOr none gid) = false := by
    rw [List.any_eq_false]
    intro e he
    simpa [pyOr] using hfresh e he
  have hnone : db.elements.find? (fun e => e.id == gid) = none :=
    List.find?_eq_none.mpr (fun e he => by simpa using hfresh e he)
  refine ⟨DB.mk (db.elements ++ [Element.mk (pyOr none gid) ty fmt title body ts ts])
    db.element_tags db.element_links,
    Element.mk (pyOr none gid) ty fmt title body ts ts, ?_, ?_, rfl, rfl, rfl, rfl, rfl⟩
  · unfold create_element
    rw [hvt, hvf]
    simp only [if_neg hti, if_neg hbo, hany, Bool.false_eq_true, if_false]
    rfl
  · unfold get_element
    rw [List.find?_append, hnone]
    simp [pyOr]

/-- C5 witness: creating a theorem element on the empty store and reading it
back returns the supplied fields with equal creation and update times. -/
theorem proofstore_C5_witness :
    ∃ db2 e, create_element db0 "theorem" "T" "B" "plain" none none "g" "t0" =
        .ok ("g", db2) ∧
      get_element db2 "g" = some e ∧
      e.type = "theorem" ∧ e.title = "T" ∧ e.body = "B" ∧ e.format = "plain" ∧
      e.created_at = e.updated_at :=
  proofstore_C5 db0 "theorem" "T" "B" "plain" "g" "t0" (by decide) (by decide)
    (by decide) (by decide) (by decide)

/-- C8 counterexample: after update_element changes the type of p to remark
(update_element does not re-validate links), the proves link L still has
relation proves; supplying rel proves to update_link does not change the
relation, yet the call re-validates and fails, so re-validation is not run
exactly when a supplied rel changes the relation but whenever rel is
supplied. -/
theorem proofstore_C8_counterexample :
    update_element dbPTL "p" (some "remark") none none none none "t2" =
      .ok (true, dbC8) ∧
    get_link dbC8 "L" = some linkPT ∧
    linkPT.rel = "proves" ∧
    update_link dbC8 "L" (some "proves") none "t3" =
      .error (.badSrcType "proves" "remark", dbC8) := by
  refine ⟨by decide, by decide, by decide, by decide⟩

/-- C8 (amended): update_link re-validates semantics exactly when a rel
argument is supplied, whether or not it differs from the stored relation: a
note-only update of an existing link always succeeds, keeping the relation,
with no semantic check of the existing endpoints, while an update supplying a
rel that fails semantic validation against the existing endpoints fails with
that error and leaves the store unchanged. -/
theorem proofstore_C8_amended :
    (∀ (db : DB) (lid n ts : String) (L : LinkRow), get_link db lid = some L →
       ∃ db2 L2, update_link db lid none (some n) ts = .ok (true, db2) ∧
         get_link db2 lid = some L2 ∧ L2.rel = L.rel ∧ L2.note = n) ∧
    (∀ (db : DB) (lid r ts : String) (L : LinkRow) (e : Err), get_link db lid = some L →
       validate_link_semantics db L.src_id L.dst_id r = .error e →
       update_link db lid (some r) none ts = .error (e, db)) := by
  constructor
  · intro db lid n ts L hL
    unfold get_link at hL
    have hq : ∀ l : LinkRow,
        ((if l.id == lid then
            LinkRow.mk l.id l.src_id l.dst_id L.rel n l.created_at ts
          else l).id == lid) = (l.id == lid) := by
      intro l
      by_cases h : l.id == lid
      · rw [if_pos h]
      · rw [if_neg h]
    refine ⟨DB.mk db.elements db.element_tags (db.element_links.map (fun l =>
        if l.id == lid then LinkRow.mk l.id l.src_id l.dst_id L.rel n l.created_at ts
        else l)),
      LinkRow.mk L.id L.src_id L.dst_id L.rel n L.created_at ts, ?_, ?_, rfl, rfl⟩
    · unfold update_link
      rw [hL]
      rfl
    · unfold get_link
      rw [find?_map_of_pred _ (fun l => l.id == lid) _ hq, hL]
      simp [List.find?_some hL]
      intro h
      exact absurd (by simpa using List.find?_some hL) h
  · intro db lid r ts L e hL hsem
    unfold get_link at hL
    unfold update_link
    rw [hL]
    rcases validate_rel_cases r with hv | hv
    · simp only [hv, hsem]
    · unfold validate_link_semantics at hsem
      rw [hv] at hsem
      simp only [Except.error.injEq] at hsem
      simp only [hv, hsem]

/-- C8 amended witness: on the store with the stale proves link L (source type
changed to remark), a note-only update succeeds and keeps the relation, while
supplying the very same relation proves fails with the incompatible-source
error and leaves the store unchanged. -/
theorem proofstore_C8_amended_witness :
    (∃ db2 L2, update_link dbC8 "L" none (some "n2") "t4" = .ok (true, db2) ∧
       get_link db2 "L" = some L2 ∧ L2.rel = linkPT.rel ∧ L2.note = "n2") ∧
    update_link dbC8 "L" (some "proves") none "t4" =
      .error (.badSrcType "proves" "remark", dbC8) :=
  ⟨proofstore_C8_amended.1 dbC8 "L" "n2" "t4" linkPT (by decide),
   proofstore_C8_amended.2 dbC8 "L" "proves" "t4" linkPT
     (.badSrcType "proves" "remark") (by decide) (by decide)⟩

/-- C10: with no limit and a non-negative offset k, list_elements and
list_links return the unpaginated listing with its first k rows removed
(internally LIMIT -1 is inserted so the OFFSET clause applies), for every
store and every combination of filters and ordering. -/
theorem proofstore_C10 (db : DB) (tyo qo tago fo : Option String) (obE odE : String)
    (itg : Bool) (so dso ro : Option String) (obL odL : String) (k : Int)
    (hk : 0 ≤ k) :
    list_elements db tyo qo tago fo none (some k) obE odE itg =
      (list_elements db tyo qo tago fo none none obE odE itg).map
        (fun rows => rows.drop k.toNat) ∧
    list_links db so dso ro none (some k) obL odL =
      (list_links db so dso ro none none obL odL).map
        (fun rows => rows.drop k.toNat) := by
  have hk2 : ¬(k < 0) := not_lt.mpr hk
  constructor
  · unfold list_elements
    cases hq : elementsQuery db tyo qo tago fo obE odE with
    | error e => rfl
    | ok rows =>
      unfold applyPagination sqliteLimitOffset
      simp only [if_neg hk2, if_pos (show (-1 : Int) < 0 by norm_num)]
      simp [List.map_drop, Except.map]
  · unfold list_links
    cases hq : linksQuery db so dso ro obL odL with
    | error e => rfl
    | ok rows =>
      unfold applyPagination sqliteLimitOffset
      simp only [if_neg hk2, if_pos (show (-1 : Int) < 0 by norm_num)]
      simp [Except.map]

/-- C10 witness: on the store with two elements and one link, offset one with
no limit drops exactly the first row of the unpaginated listings. -/
theorem proofstore_C10_witness :
    list_elements dbC8 none none none none none (some 1) "updated_at" "desc" false =
      (list_elements dbC8 none none none none none none "updated_at" "desc" false).map
        (fun rows => rows.drop (1 : Int).toNat) ∧
    list_links dbC8 none none none none (some 1) "updated_at" "desc" =
      (list_links dbC8 none none none none none "updated_at" "desc").map
        (fun rows => rows.drop (1 : Int).toNat) :=
  proofstore_C10 dbC8 none none none none "updated_at" "desc" false none none none
    "updated_at" "desc" 1 (by decide)

/-- A successful normalization of one tag returns its stripped form. -/
theorem normalize_tag_ok (t t1 : String) (h : normalize_tag t = .ok t1) :
    t1 = pyStrip t := by
  unfold normalize_tag at h
  simp only [] at h
  split_ifs at h
  simp_all

/-- A successful normalization pass returns the stripped tags in order. -/
theorem mapNormalizeTag_ok (tags : List String) :
    ∀ norm, mapNormalizeTag tags = .ok norm → norm = tags.map pyStrip := by
  induction tags with
  | nil =>
    intro norm h
    unfold mapNormalizeTag at h
    simp at h
    subst h
    rfl
  | cons t rest ih =>
    intro norm h
    unfold mapNormalizeTag at h
    cases hn : normalize_tag t with
    | error e => rw [hn] at h; simp at h
    | ok t1 =>
      rw [hn] at h
      cases hr : mapNormalizeTag rest with
      | error e => rw [hr] at h; simp at h
      | ok rest1 =>
        rw [hr] at h
        simp at h
        rw [← h, List.map_cons, normalize_tag_ok t t1 hn, ih rest1 hr]

/-- Deduplication keeping first occurrences yields a duplicate-free list,
disjoint from the seen accumulator. -/
theorem dedupFirstSeen_nodup (l : List String) :
    ∀ seen, (dedupFirstSeen seen l).Nodup ∧ ∀ x ∈ dedupFirstSeen seen l, x ∉ seen := by
  induction l with
  | nil =>
    intro seen
    unfold dedupFirstSeen
    simp
  | cons t rest ih =>
    intro seen
    unfold dedupFirstSeen
    by_cases h : t ∈ seen
    · rw [if_pos h]
      exact ih seen
    · rw [if_neg h]
      obtain ⟨hnd, hni⟩ := ih (t :: seen)
      refine ⟨List.nodup_cons.mpr ⟨?_, hnd⟩, ?_⟩
      · intro hmem
        exact (hni t hmem) (List.mem_cons_self t seen)
      · intro x hx
        rcases List.mem_cons.mp hx with rfl | hx2
        · exact h
        · intro hxseen
          exact (hni x hx2) (List.mem_cons_of_mem t hxseen)

/-- Inserting a duplicate-free list of fresh tags for an existing element
succeeds and appends exactly one row per tag. -/
theorem insertTagRows_ok (eid ts : String) :
    ∀ (l : List String) (db : DB),
      elementExists db eid = true →
      (∀ t ∈ l, db.element_tags.any (fun r => r.element_id == eid && r.tag == t) = false) →
      l.Nodup →
      insertTagRows eid ts db l =
        .ok ((), DB.mk db.elements
          (db.element_tags ++ l.map (fun t => TagRow.mk eid t ts)) db.element_links) := by
  intro l
  induction l with
  | nil =>
    intro db hel hno hnd
    unfold insertTagRows
    simp
  | cons t rest ih =>
    intro db hel hno hnd
    unfold insertTagRows
    rw [if_pos hel, if_neg ?hdup]
    case hdup =>
      rw [hno t (List.mem_cons_self t rest)]
      simp
    have hel2 : elementExists (DB.mk db.elements
        (db.element_tags ++ [TagRow.mk eid t ts]) db.element_links) eid = true := hel
    have hno2 : ∀ t2 ∈ rest,
        (db.element_tags ++ [TagRow.mk eid t ts]).any
          (fun r => r.element_id == eid && r.tag == t2) = false := by
      intro t2 ht2
      rw [List.any_append]
      have hn1 := hno t2 (List.mem_cons_of_mem t ht2)
      have hn2 : (t == t2) = false := by
        have : t ≠ t2 := by
          intro hcontra
          exact (List.nodup_cons.mp hnd).1 (hcontra ▸ ht2)
        simpa using this
      simp [hn1, hn2]
    have hnd2 : rest.Nodup := (List.nodup_cons.mp hnd).2
    rw [ih _ hel2 hno2 hnd2]
    simp

/-- C4: for an existing element, a successfully normalized tag list set via
set_tags and read back via list_tags yields exactly the stripped, first-seen
deduplicated forms of the input tags in ascending lexical order. -/
theorem proofstore_C4 (db : DB) (eid ts : String) (tags norm : List String)
    (hex : elementExists db eid = true)
    (hn : normalize_tags tags = .ok norm) :
    ∃ db2, set_tags db eid tags ts = .ok ((), db2) ∧
      list_tags db2 eid = sortTags (dedupFirstSeen [] (tags.map pyStrip)) := by
  have hnorm : norm = dedupFirstSeen [] (tags.map pyStrip) := by
    unfold normalize_tags at hn
    cases hm : mapNormalizeTag tags with
    | error e => rw [hm] at hn; simp at hn
    | ok l =>
      rw [hm] at hn
      simp at hn
      rw [← hn, mapNormalizeTag_ok tags l hm]
  have hel1 : elementExists (DB.mk db.elements
      (db.element_tags.filter (fun r => r.element_id != eid)) db.element_links) eid =
      true := hex
  have hno1 : ∀ t ∈ norm,
      (db.element_tags.filter (fun r => r.element_id != eid)).any
        (fun r => r.element_id == eid && r.tag == t) = false := by
    intro t ht
    rw [List.any_eq_false]
    intro r hr
    have hne := (List.mem_filter.mp hr).2
    simp only [bne_iff_ne, ne_eq] at hne
    simp [hne]
  have hnd : norm.Nodup := by
    rw [hnorm]
    exact (dedupFirstSeen_nodup (tags.map pyStrip) []).1
  refine ⟨DB.mk db.elements
    ((db.element_tags.filter (fun r => r.element_id != eid)) ++
      norm.map (fun t => TagRow.mk eid t ts)) db.element_links, ?_, ?_⟩
  · unfold set_tags
    rw [hn]
    exact insertTagRows_ok eid ts norm _ hel1 hno1 hnd
  · unfold list_tags
    have hff : (db.element_tags.filter (fun r => r.element_id != eid)).filter
        (fun r => r.element_id == eid) = [] := by
      rw [List.filter_filter]
      rw [List.filter_eq_nil_iff]
      intro r hr
      simp [bne]
    have hall : (norm.map (fun t => TagRow.mk eid t ts)).filter
        (fun r => r.element_id == eid) = norm.map (fun t => TagRow.mk eid t ts) := by
      rw [List.filter_eq_self]
      intro r hr
      obtain ⟨t, _, rfl⟩ := List.mem_map.mp hr
      simp
    rw [List.filter_append, hff, hall]
    simp only [List.nil_append, List.map_map]
    rw [show ((fun r : TagRow => r.tag) ∘ fun t => TagRow.mk eid t ts) = id from rfl]
    rw [List.map_id, hnorm]

/-- C4 witness: on the store with element e1, setting the tags a, b, a and
space-c-space then listing yields exactly a, b, c in lexical order. -/
theorem proofstore_C4_witness :
    ∃ db2, set_tags dbE1 "e1" ["a", "b", "a", " c "] "t1" = .ok ((), db2) ∧
      list_tags db2 "e1" = ["a", "b", "c"] := by
  obtain ⟨db2, h1, h2⟩ := proofstore_C4 dbE1 "e1" "t1" ["a", "b", "a", " c "]
    ["a", "b", "c"] (by decide) (by decide)
  refine ⟨db2, h1, ?_⟩
  rw [h2]
  decide

/-- insertTagRows only appends tag rows: elements and links are untouched. -/
theorem insertTagRows_state (eid ts : String) :
    ∀ (l : List String) (db db2 : DB) (u : Unit),
      insertTagRows eid ts db l = .ok (u, db2) →
      db2.elements = db.elements ∧ db2.element_links = db.element_links := by
  intro l
  induction l with
  | nil =>
    intro db db2 u h
    unfold insertTagRows at h
    simp at h
    subst h
    exact ⟨rfl, rfl⟩
  | cons t rest ih =>
    intro db db2 u h
    unfold insertTagRows at h
    by_cases hel : elementExists db eid = true
    · rw [if_pos hel] at h
      by_cases hdup : db.element_tags.any (fun r => r.element_id == eid && r.tag == t) = true
      · rw [if_pos hdup] at h
        simp at h
      · rw [if_neg hdup] at h
        exact ih (DB.mk db.elements (db.element_tags ++ [TagRow.mk eid t ts])
          db.element_links) db2 u h
    · rw [if_neg hel] at h
      simp at h

/-- set_tags only rewrites the element_tags table: elements and links are
untouched by a successful call. -/
theorem set_tags_state (db : DB) (eid : String) (tl : List String) (ts : String)
    (db2 : DB) (u : Unit) (h : set_tags db eid tl ts = .ok (u, db2)) :
    db2.elements = db.elements ∧ db2.element_links = db.element_links := by
  unfold set_tags at h
  cases hm : normalize_tags tl with
  | error e =>
    rw [hm] at h
    simp at h
  | ok norm =>
    rw [hm] at h
    exact insertTagRows_state eid ts norm
      (DB.mk db.elements (db.element_tags.filter (fun r => r.element_id != eid))
        db.element_links) db2 u h

/-- C7: a successful update_element keeps created_at, refreshes updated_at to
the call time, and every field not supplied keeps its prior value: type,
title, body and format when their arguments are absent, and the tag
associations when no tag list is supplied (so an update with no fields
supplied changes only updated_at). -/
theorem proofstore_C7 (db : DB) (eid ts : String) (e : Element)
    (tyo tio bo fo : Option String) (tgo : Option (List String)) (db2 : DB)
    (he : get_element db eid = some e)
    (hok : update_element db eid tyo tio bo fo tgo ts = .ok (true, db2)) :
    ∃ e2, get_element db2 eid = some e2 ∧
      e2.created_at = e.created_at ∧
      e2.updated_at = ts ∧
      (tyo = none → e2.type = e.type) ∧
      (tio = none → e2.title = e.title) ∧
      (bo = none → e2.body = e.body) ∧
      (fo = none → e2.format = e.format) ∧
      (tgo = none → list_tags db2 eid = list_tags db eid) := by
  unfold get_element at he
  unfold update_element at hok
  simp only [he] at hok
  cases h1 : resolveOptType tyo e.type with
  | error e0 =>
    rw [h1] at hok
    simp at hok
  | ok new_type =>
    rw [h1] at hok
    cases h2 : resolveOptFormat fo e.format with
    | error e0 =>
      rw [h2] at hok
      simp at hok
    | ok new_format =>
      rw [h2] at hok
      by_cases hti : pyStrip (tio.getD e.title) = ""
      · simp [hti] at hok
      · by_cases hbo : pyStrip (bo.getD e.body) = ""
        · simp [hti, hbo] at hok
        · simp only [if_neg hti, if_neg hbo] at hok
          have hq : ∀ a : Element,
              ((if a.id == eid then
                  Element.mk a.id new_type new_format (tio.getD e.title)
                    (bo.getD e.body) a.created_at ts
                else a).id == eid) = (a.id == eid) := by
            intro a
            by_cases hh : a.id == eid
            · rw [if_pos hh]
            · rw [if_neg hh]
          have hget : ∀ dbx : DB,
              dbx.elements = db.elements.map (fun a =>
                if a.id == eid then
                  Element.mk a.id new_type new_format (tio.getD e.title)
                    (bo.getD e.body) a.created_at ts
                else a) →
              get_element dbx eid = some (Element.mk e.id new_type new_format
                (tio.getD e.title) (bo.getD e.body) e.created_at ts) := by
            intro dbx hx
            unfold get_element
            rw [hx, find?_map_of_pred _ (fun a => a.id == eid) _ hq, he]
            simp [List.find?_some he]
            intro hcon
            exact absurd (by simpa using List.find?_some he) hcon
          have htype : tyo = none → new_type = e.type := by
            intro hy
            subst hy
            simp [resolveOptType] at h1
            exact h1.symm
          have hfmt : fo = none → new_format = e.format := by
            intro hy
            subst hy
            simp [resolveOptFormat] at h2
            exact h2.symm
          cases tgo with
          | none =>
            simp only [Except.ok.injEq, Prod.mk.injEq, true_and] at hok
            subst hok
            refine ⟨_, hget _ rfl, rfl, rfl, ?_, ?_, ?_, ?_, fun _ => rfl⟩
            · exact htype
            · intro hy
              subst hy
              rfl
            · intro hy
              subst hy
              rfl
            · exact hfmt
          | some tl =>
            split at hok
            · rename_i heq
              exact absurd heq (by simp)
            · rename_i tl2 heq2
              split at hok
              · simp at hok
              · rename_i u db3 heq
                simp only [Except.ok.injEq, Prod.mk.injEq, true_and] at hok
                subst hok
                obtain ⟨hels, -⟩ := set_tags_state _ _ _ _ _ _ heq
                refine ⟨_, hget _ hels, rfl, rfl, ?_, ?_, ?_, ?_, ?_⟩
                · exact htype
                · intro hy
                  subst hy
                  rfl
                · intro hy
                  subst hy
                  rfl
                · exact hfmt
                · intro hy
                  exact absurd hy (by simp)

/-- C7 witness: updating element e1 with no fields supplied succeeds, keeps
type, title, body, format, created_at and tags, and refreshes updated_at. -/
theorem proofstore_C7_witness :
    ∃ e2, get_element dbE1upd "e1" = some e2 ∧
      e2.created_at = (Element.mk "e1" "remark" "plain" "x" "y" "t0" "t0").created_at ∧
      e2.updated_at = "t2" ∧
      ((none : Option String) = none →
        e2.type = (Element.mk "e1" "remark" "plain" "x" "y" "t0" "t0").type) ∧
      ((none : Option String) = none →
        e2.title = (Element.mk "e1" "remark" "plain" "x" "y" "t0" "t0").title) ∧
      ((none : Option String) = none →
        e2.body = (Element.mk "e1" "remark" "plain" "x" "y" "t0" "t0").body) ∧
      ((none : Option String) = none →
        e2.format = (Element.mk "e1" "remark" "plain" "x" "y" "t0" "t0").format) ∧
      ((none : Option (List String)) = none →
        list_tags dbE1upd "e1" = list_tags dbE1 "e1") :=
  proofstore_C7 dbE1 "e1" "t2" (Element.mk "e1" "remark" "plain" "x" "y" "t0" "t0")
    none none none none none dbE1upd (by decide) (by decide)

/-- C9 witness: on the empty store, updates of a missing element and a missing
link return false even though the supplied type, title and rel are invalid. -/
theorem proofstore_C9_witness :
    update_element db0 "x" (some "bogus") (some "") none (some "nah") none "t0" =
      .ok (false, db0) ∧
    update_link db0 "x" (some "bogus") (some "n") "t0" = .ok (false, db0) :=
  ⟨proofstore_C9.1 db0 "x" (some "bogus") (some "") none (some "nah") none "t0" (by decide),
   proofstore_C9.2 db0 "x" (some "bogus") (some "n") "t0" (by decide)⟩
